import Mathlib

set_option maxRecDepth 16384

/-
Shallow embedding of `src/questionnaire_analyzer.py` (medscan).

Modelling choices:
* Python `str` values are modelled as Lean `String` (a sequence of code
  points); character-level operations work on `String.data : List Char`,
  matching Python's code-point indexing and slicing.
* `json.loads` is modelled by `json_loads` below: a fueled recursive
  descent parser for the JSON grammar accepted by Python's `json` module
  (values: object / array / string / number / true / false / null, plus
  the Python extras `NaN`, `Infinity`, `-Infinity`; whitespace between
  tokens restricted to space, tab, newline, carriage return; the whole
  input must be consumed).  Numeric lexemes are kept verbatim in the
  `Json.num` constructor, since no claim inspects numeric values, and
  object members are kept as an association list in source order.
* The two `re.search` calls of `extract_json_from_response` are modelled
  operationally by `fencedSearch` (pattern ```json\s*(.*?)\s*``` with
  DOTALL: leftmost match, lazy body, i.e. the text between the first
  occurrence of the opening fence and the first closing fence after it,
  with surrounding whitespace stripped) and `braceSearch` (pattern
  \{.*\} with DOTALL: leftmost starting position, greedy body, i.e. from
  a `{` to the last `}` of the text, trying later starting positions
  when no `}` follows).
-/

namespace MedScan

/-- JSON values as produced by Python's `json.loads`.  Numeric lexemes are
kept verbatim; object members are an association list in source order. -/
inductive Json where
  | null
  | bool (b : Bool)
  | num (lexeme : String)
  | str (s : String)
  | arr (items : List Json)
  | obj (members : List (String × Json))

/-- Whitespace accepted by the JSON grammar between tokens. -/
def isJsonWs (c : Char) : Bool :=
  c = ' ' || c = '\t' || c = '\n' || c = '\r'

/-- Drop leading JSON whitespace. -/
def skipJsonWs (cs : List Char) : List Char :=
  cs.dropWhile isJsonWs

/-- Value of a hexadecimal digit. -/
def hexDigitVal (c : Char) : Option Nat :=
  if '0' ≤ c ∧ c ≤ '9' then some (c.toNat - '0'.toNat)
  else if 'a' ≤ c ∧ c ≤ 'f' then some (c.toNat - 'a'.toNat + 10)
  else if 'A' ≤ c ∧ c ≤ 'F' then some (c.toNat - 'A'.toNat + 10)
  else none

/-- Four hexadecimal digits, as used by the \uXXXX string escape. -/
def parseHex4 : List Char → Option (Nat × List Char)
  | a :: b :: c :: d :: rest =>
    match hexDigitVal a, hexDigitVal b, hexDigitVal c, hexDigitVal d with
    | some x, some y, some z, some w => some (((x * 16 + y) * 16 + z) * 16 + w, rest)
    | _, _, _, _ => none
  | _ => none

/-- Single-character JSON string escapes. -/
def escChar (e : Char) : Option Char :=
  if e = '"' then some '"'
  else if e = '\\' then some '\\'
  else if e = '/' then some '/'
  else if e = 'b' then some (Char.ofNat 8)
  else if e = 'f' then some (Char.ofNat 12)
  else if e = 'n' then some '\n'
  else if e = 'r' then some '\r'
  else if e = 't' then some '\t'
  else none

/-- Body of a JSON string literal, after the opening quote.  Unescaped
control characters are rejected, as in Python's strict mode. -/
def parseStringBody : Nat → List Char → List Char → Option (String × List Char)
  | 0, _, _ => none
  | _ + 1, [], _ => none
  | fuel + 1, c :: rest, acc =>
    if c = '"' then some (String.mk acc.reverse, rest)
    else if c = '\\' then
      match rest with
      | [] => none
      | 'u' :: rest2 =>
        match parseHex4 rest2 with
        | some (n, rest3) => parseStringBody fuel rest3 (Char.ofNat n :: acc)
        | none => none
      | e :: rest2 =>
        match escChar e with
        | some ec => parseStringBody fuel rest2 (ec :: acc)
        | none => none
    else if c.toNat < 32 then none
    else parseStringBody fuel rest (c :: acc)

/-- JSON number lexeme (sign, integer part without leading zeros, optional
fraction, optional exponent), plus the Python extras NaN / Infinity /
-Infinity.  Returns the lexeme and the remaining input. -/
def parseNumber (cs : List Char) : Option (String × List Char) :=
  if List.isPrefixOf "NaN".data cs then some ("NaN", cs.drop 3)
  else if List.isPrefixOf "Infinity".data cs then some ("Infinity", cs.drop 8)
  else if List.isPrefixOf "-Infinity".data cs then some ("-Infinity", cs.drop 9)
  else
    let signed : List Char × List Char :=
      match cs with
      | '-' :: rest => (['-'], rest)
      | _ => ([], cs)
    match signed.2 with
    | [] => none
    | d :: tail =>
      if d.isDigit then
        let ipart : List Char × List Char :=
          if d = '0' then (['0'], tail)
          else (signed.2.takeWhile Char.isDigit, signed.2.dropWhile Char.isDigit)
        let fpart : List Char × List Char :=
          match ipart.2 with
          | '.' :: r =>
            if (r.takeWhile Char.isDigit).isEmpty then ([], ipart.2)
            else ('.' :: r.takeWhile Char.isDigit, r.dropWhile Char.isDigit)
          | _ => ([], ipart.2)
        let epart : List Char × List Char :=
          match fpart.2 with
          | e :: r =>
            if e = 'e' ∨ e = 'E' then
              let es : List Char × List Char :=
                match r with
                | s :: r3 => if s = '+' ∨ s = '-' then ([s], r3) else ([], r)
                | [] => ([], r)
              if (es.2.takeWhile Char.isDigit).isEmpty then ([], fpart.2)
              else (e :: (es.1 ++ es.2.takeWhile Char.isDigit), es.2.dropWhile Char.isDigit)
            else ([], fpart.2)
          | [] => ([], fpart.2)
        some (String.mk (signed.1 ++ ipart.1 ++ fpart.1 ++ epart.1), epart.2)
      else none

mutual

/-- JSON value parser (fueled recursive descent); expects its input to
start at a value token. -/
def parseValue : Nat → List Char → Option (Json × List Char)
  | 0, _ => none
  | fuel + 1, cs =>
    match cs with
    | [] => none
    | c :: rest =>
      if c = '"' then
        match parseStringBody (rest.length + 1) rest [] with
        | some (s, r) => some (.str s, r)
        | none => none
      else if c = '{' then parseObject fuel (skipJsonWs rest)
      else if c = '[' then parseArray fuel (skipJsonWs rest)
      else if List.isPrefixOf "true".data cs then some (.bool true, cs.drop 4)
      else if List.isPrefixOf "false".data cs then some (.bool false, cs.drop 5)
      else if List.isPrefixOf "null".data cs then some (.null, cs.drop 4)
      else
        match parseNumber cs with
        | some (lex, r) => some (.num lex, r)
        | none => none

/-- Object body, after the opening brace and whitespace. -/
def parseObject : Nat → List Char → Option (Json × List Char)
  | 0, _ => none
  | fuel + 1, cs =>
    match cs with
    | '}' :: rest => some (.obj [], rest)
    | _ => parseMembers fuel cs []

/-- Non-empty member list of an object. -/
def parseMembers : Nat → List Char → List (String × Json) → Option (Json × List Char)
  | 0, _, _ => none
  | fuel + 1, cs, acc =>
    match cs with
    | '"' :: rest =>
      match parseStringBody (rest.length + 1) rest [] with
      | some (key, r1) =>
        match skipJsonWs r1 with
        | ':' :: r2 =>
          match parseValue fuel (skipJsonWs r2) with
          | some (v, r3) =>
            match skipJsonWs r3 with
            | ',' :: r4 => parseMembers fuel (skipJsonWs r4) ((key, v) :: acc)
            | '}' :: r4 => some (.obj ((key, v) :: acc).reverse, r4)
            | _ => none
          | none => none
        | _ => none
      | none => none
    | _ => none

/-- Array body, after the opening bracket and whitespace. -/
def parseArray : Nat → List Char → Option (Json × List Char)
  | 0, _ => none
  | fuel + 1, cs =>
    match cs with
    | ']' :: rest => some (.arr [], rest)
    | _ => parseItems fuel cs []

/-- Non-empty item list of an array. -/
def parseItems : Nat → List Char → List Json → Option (Json × List Char)
  | 0, _, _ => none
  | fuel + 1, cs, acc =>
    match parseValue fuel cs with
    | some (v, r) =>
      match skipJsonWs r with
      | ',' :: r2 => parseItems fuel (skipJsonWs r2) (v :: acc)
      | ']' :: r2 => some (.arr (v :: acc).reverse, r2)
      | _ => none
    | none => none

end

/-- Model of Python `json.loads` on a list of code points: parse one value,
allowing surrounding whitespace, and require the whole input consumed. -/
def json_loads_chars (cs : List Char) : Option Json :=
  match parseValue (3 * cs.length + 3) (skipJsonWs cs) with
  | some (v, rest) => if (skipJsonWs rest).isEmpty then some v else none
  | none => none

/-- Model of Python `json.loads` on a string. -/
def json_loads (s : String) : Option Json :=
  json_loads_chars s.data

/-- Characters matched by the regex class \s (ASCII portion). -/
def isPyWs (c : Char) : Bool :=
  c = ' ' || c = '\t' || c = '\n' || c = '\r' || c = '\x0b' || c = '\x0c'

/-- Strip regex whitespace from both ends of a character list. -/
def stripPyWs (cs : List Char) : List Char :=
  ((cs.dropWhile isPyWs).reverse.dropWhile isPyWs).reverse

/-- Index of the first occurrence of `pat` as a contiguous sublist. -/
def findSubIdx (pat : List Char) : List Char → Option Nat
  | [] => if pat.isEmpty then some 0 else none
  | cs@(_ :: rest) =>
    if List.isPrefixOf pat cs then some 0
    else (findSubIdx pat rest).map (· + 1)

/-- Model of re.search with pattern ```json\s*(.*?)\s*``` and re.DOTALL,
returning group(1): the text between the first occurrence of the opening
fence and the first closing fence after it, with surrounding whitespace
stripped (the lazy body together with the greedy \s* on both sides).
When an opening fence has no closing fence after it, the regex engine
tries later starting positions. -/
def fencedSearch : List Char → Option (List Char)
  | [] => none
  | cs@(_ :: rest) =>
    if List.isPrefixOf "```json".data cs then
      match findSubIdx "```".data (cs.drop 7) with
      | some k => some (stripPyWs ((cs.drop 7).take k))
      | none => fencedSearch rest
    else fencedSearch rest

/-- Index of the first occurrence of a character. -/
def firstIdxOf (c : Char) : List Char → Option Nat
  | [] => none
  | a :: rest => if a = c then some 0 else (firstIdxOf c rest).map (· + 1)

/-- Index of the last occurrence of a character. -/
def lastIdxOf (c : Char) : List Char → Option Nat
  | [] => none
  | a :: rest =>
    match lastIdxOf c rest with
    | some n => some (n + 1)
    | none => if a = c then some 0 else none

/-- Model of re.search with pattern \{.*\} and re.DOTALL, returning
group(0): starting from the leftmost `{`, the greedy body extends to the
last `}` of the text; when no `}` follows a candidate `{`, the regex
engine tries later starting positions. -/
def braceSearch : List Char → Option (List Char)
  | [] => none
  | c :: rest =>
    if c = '{' then
      match lastIdxOf '}' rest with
      | some j => some ('{' :: rest.take (j + 1))
      | none => braceSearch rest
    else braceSearch rest

/-- Truncation applied to the raw response in the fallback error object:
`response_text[:500] + "..." if len(response_text) > 500 else response_text`. -/
def truncated_raw (response_text : String) : String :=
  if 500 < response_text.length then String.mk (response_text.data.take 500) ++ "..."
  else response_text

/-- Fallback error object returned when all three parse attempts fail. -/
def parse_error_obj (response_text : String) : Json :=
  .obj [("error", .str "JSON解析エラー"), ("raw_response", .str (truncated_raw response_text))]

/-- Steps 3 and 4 of `extract_json_from_response`: brace-span parse, then
the fallback error object. -/
def brace_step (response_text : String) : Json :=
  match braceSearch response_text.data with
  | some span =>
    match json_loads_chars span with
    | some v => v
    | none => parse_error_obj response_text
  | none => parse_error_obj response_text

/-- Model of `extract_json_from_response` (src/questionnaire_analyzer.py,
lines 41-74): direct parse, then first ```json fenced block, then brace
span, then the fallback error object. -/
def extract_json_from_response (response_text : String) : Json :=
  match json_loads response_text with
  | some v => v
  | none =>
    match fencedSearch response_text.data with
    | some inner =>
      match json_loads_chars inner with
      | some v => v
      | none => brace_step response_text
    | none => brace_step response_text

/-- Raster image in the PIL sense: dimensions plus a pixel lookup, the
argument order being (x, y) from the top-left origin. -/
structure PILImage where
  width : Nat
  height : Nat
  pixel : Nat → Nat → Nat

/-- Rectangle (x1, y1, x2, y2) in pixel space, as in the source's
four-element bbox lists. -/
structure BBox where
  x1 : Nat
  y1 : Nat
  x2 : Nat
  y2 : Nat
deriving DecidableEq

/-- Model of `PIL.Image.crop`: the sub-image of size (x2 - x1, y2 - y1)
whose pixel (u, v) is the source pixel (x1 + u, y1 + v).  The source
image is not modified; a new image is derived. -/
def PILImage.crop (img : PILImage) (b : BBox) : PILImage :=
  { width := b.x2 - b.x1, height := b.y2 - b.y1,
    pixel := fun u v => img.pixel (b.x1 + u) (b.y1 + v) }

/-- Model of `crop_image_by_bbox` (src/questionnaire_analyzer.py, lines
27-39): delegate to the image crop operation. -/
def crop_image_by_bbox (image : PILImage) (bbox : BBox) : PILImage :=
  image.crop bbox

/-- Model of `BBOX_COORDINATES` (src/questionnaire_analyzer.py, lines
20-25), as an association list in the dict's insertion order. -/
def BBOX_COORDINATES : List (String × BBox) :=
  [("A", ⟨47, 156, 880, 499⟩),
   ("B", ⟨47, 504, 880, 902⟩),
   ("C", ⟨47, 906, 881, 1083⟩),
   ("D", ⟨45, 1083, 320, 1200⟩)]

/-- Prompt for section A (src/questionnaire_analyzer.py, lines 106-123);
literal braces of the Python string are written with hex escapes. -/
def promptA : String :=
  "\n            この画像はアンケートの「あなたの仕事について」のセクションです。\n            各質問項目について、どの選択肢（そうだ、まあそうだ、ややちがう、ちがう）にチェックが入っているかを読み取ってください。\n\n            重要: 必ず以下のJSON形式で回答してください。他の説明は不要です。\n\n            \x7b\n                \"section\": \"A\",\n                \"title\": \"あなたの仕事について\",\n                \"questions\": [\n                    \x7b\n                        \"number\": 1,\n                        \"question\": \"非常にたくさんの仕事をしなければならない\",\n                        \"answer\": \"そうだ\"\n                    \x7d\n                ]\n            \x7d\n            "

/-- Prompt for section B (src/questionnaire_analyzer.py, lines 124-141). -/
def promptB : String :=
  "\n            この画像はアンケートの「最近1か月間のあなたの状態について」のセクションです。\n            各質問項目について、どの選択肢（ほとんどいつもあった、しばしばあった、ときどきあった、ほとんどなかった）にチェックが入っているかを読み取ってください。\n\n            重要: 必ず以下のJSON形式で回答してください。他の説明は不要です。\n\n            \x7b\n                \"section\": \"B\",\n                \"title\": \"最近1か月間のあなたの状態について\",\n                \"questions\": [\n                    \x7b\n                        \"number\": 1,\n                        \"question\": \"活気がわいてくる\",\n                        \"answer\": \"ほとんどなかった\"\n                    \x7d\n                ]\n            \x7d\n            "

/-- Prompt for section C (src/questionnaire_analyzer.py, lines 142-159). -/
def promptC : String :=
  "\n            この画像はアンケートの「あなたの周りの方々について」のセクションです。\n            各質問項目について、どの選択肢（非常に、かなり、多少、ない、全くない）にチェックが入っているかを読み取ってください。\n\n            重要: 必ず以下のJSON形式で回答してください。他の説明は不要です。\n\n            \x7b\n                \"section\": \"C\",\n                \"title\": \"あなたの周りの方々について\",\n                \"questions\": [\n                    \x7b\n                        \"number\": 1,\n                        \"question\": \"上司\",\n                        \"answer\": \"非常に\"\n                    \x7d\n                ]\n            \x7d\n            "

/-- Prompt for section D (src/questionnaire_analyzer.py, lines 160-177). -/
def promptD : String :=
  "\n            この画像はアンケートの「満足度について」のセクションです。\n            各質問項目について、どの選択肢（満足、まあ満足、やや不満足、不満足）にチェックが入っているかを読み取ってください。\n\n            重要: 必ず以下のJSON形式で回答してください。他の説明は不要です。\n\n            \x7b\n                \"section\": \"D\",\n                \"title\": \"満足度について\",\n                \"questions\": [\n                    \x7b\n                        \"number\": 1,\n                        \"question\": \"仕事に満足だ\",\n                        \"answer\": \"満足\"\n                    \x7d\n                ]\n            \x7d\n            "

/-- Model of the `prompts` dict lookup inside `analyze_section_with_gemini`
(src/questionnaire_analyzer.py, lines 105-178): one fixed prompt per
section identifier; unknown identifiers have no entry (KeyError). -/
def prompts (section_name : String) : Option String :=
  if section_name = "A" then some promptA
  else if section_name = "B" then some promptB
  else if section_name = "C" then some promptC
  else if section_name = "D" then some promptD
  else none

/-- External side effects performed by the adapter's call path, in the
order the source performs them. -/
inductive Effect where
  | configure
  | encodePng
  | initModel
  | generate
deriving DecidableEq

/-- Handle returned by model initialization. -/
structure GeminiModel where
  name : String

/-- Oracle for the effectful steps of the adapter: each step may raise an
exception, modelled as `Except` carrying the exception message. -/
structure GeminiEnv where
  configure : String → Except String Unit
  savePng : PILImage → Except String (List Nat)
  initModel : String → Except String GeminiModel
  generate : GeminiModel → String → List Nat → Except String String

/-- Error object returned when the API key is absent or empty. -/
def missing_key_obj : Json :=
  .obj [("error", .str "Gemini APIキーが設定されていません")]

/-- Error object built by the adapter's exception handler:
`{"error": f"Gemini API エラー: {str(e)}"}`. -/
def api_error_obj (msg : String) : Json :=
  .obj [("error", .str ("Gemini API エラー: " ++ msg))]

/-- Model of `analyze_section_with_gemini` (src/questionnaire_analyzer.py,
lines 76-191).  Returns the result dict together with the trace of
external effects performed, in order.  The credential check precedes the
try block; inside it, configure, PNG encoding, model initialization, the
prompt lookup (whose KeyError message is the repr of the key) and the
generate call each run in source order, any exception being caught and
turned into `api_error_obj` of its message. -/
def analyze_section_with_gemini (env : GeminiEnv) (image : PILImage)
    (section_name : String) (api_key : String) (model_name : String) :
    Json × List Effect :=
  if api_key = "" then (missing_key_obj, [])
  else
    match env.configure api_key with
    | .error e => (api_error_obj e, [.configure])
    | .ok _ =>
      match env.savePng image with
      | .error e => (api_error_obj e, [.configure, .encodePng])
      | .ok png =>
        match env.initModel model_name with
        | .error e => (api_error_obj e, [.configure, .encodePng, .initModel])
        | .ok model =>
          match prompts section_name with
          | none =>
            (api_error_obj (String.mk ('\x27' :: section_name.data ++ ['\x27'])),
             [.configure, .encodePng, .initModel])
          | some prompt =>
            match env.generate model prompt png with
            | .error e => (api_error_obj e, [.configure, .encodePng, .initModel, .generate])
            | .ok text =>
              (extract_json_from_response text,
               [.configure, .encodePng, .initModel, .generate])

/-- Model of the aggregation loop of `main` (src/questionnaire_analyzer.py,
lines 245-262): for each region of `BBOX_COORDINATES`, in order, crop the
image, run the adapter, and record the result under the region's
identifier. -/
def analyze_all_sections (env : GeminiEnv) (image : PILImage)
    (api_key : String) (model_name : String) : List (String × Json) :=
  BBOX_COORDINATES.map (fun sb =>
    (sb.1, (analyze_section_with_gemini env (crop_image_by_bbox image sb.2)
              sb.1 api_key model_name).1))

/-- Contiguous-sublist test used to state containment of a term in a
prompt. -/
def containsSub (needle : List Char) : List Char → Bool
  | [] => needle.isEmpty
  | cs@(_ :: rest) => List.isPrefixOf needle cs || containsSub needle rest

/-- The prompt of a section contains a term as a contiguous substring. -/
def promptContains (sec term : String) : Bool :=
  match prompts sec with
  | some p => containsSub term.data p.data
  | none => false

/-- Shape test for one entry of the `questions` array of the structured
record described by the spec's data model. -/
def isQuestionEntry : Json → Bool
  | .obj members => members.map Prod.fst == ["number", "question", "answer"]
  | _ => false

/-- Shape test for the spec's structured record
\x7bsection, title, questions: [\x7bnumber, question, answer\x7d]\x7d. -/
def isStructuredRecord : Json → Bool
  | .obj members =>
    members.map Prod.fst == ["section", "title", "questions"] &&
    (match members.lookup "questions" with
     | some (.arr items) => items.all isQuestionEntry
     | _ => false)
  | _ => false

/-- Shape test for the spec's error record \x7berror, raw_response\x7d. -/
def isErrorRecord : Json → Bool
  | .obj members => members.map Prod.fst == ["error", "raw_response"]
  | _ => false

/-- Object whose member list starts with an `error` field. -/
def isErrorKeyed : Json → Bool
  | .obj (("error", _) :: _) => true
  | _ => false

/-- Concrete image used to instantiate universally quantified theorems. -/
def testImage : PILImage :=
  ⟨1000, 1300, fun u v => u + v⟩

/-- Oracle whose steps all succeed and whose generate call returns a fixed
text. -/
def okEnv (text : String) : GeminiEnv :=
  { configure := fun _ => .ok (), savePng := fun _ => .ok [],
    initModel := fun n => .ok ⟨n⟩, generate := fun _ _ _ => .ok text }

/-- Oracle whose remote generate call raises. -/
def failEnv : GeminiEnv :=
  { configure := fun _ => .ok (), savePng := fun _ => .ok [],
    initModel := fun n => .ok ⟨n⟩, generate := fun _ _ _ => .error "quota exceeded" }

/-- Oracle that raises during the remote call exactly when asked for
section B's prompt, and otherwise answers with a fixed JSON text. -/
def mockEnvB : GeminiEnv :=
  { configure := fun _ => .ok (), savePng := fun _ => .ok [],
    initModel := fun n => .ok ⟨n⟩,
    generate := fun _ prompt _ =>
      if prompt = promptB then .error "mocked failure"
      else .ok "\x7b\"section\": \"X\"\x7d" }

/-- Input of 600 identical characters, on which every parse attempt fails. -/
def sixHundredXs : String :=
  String.mk (List.replicate 600 'x')

/-- A successful direct parse is returned as is. -/
theorem extract_of_direct (text : String) (v : Json)
    (h : json_loads text = some v) :
    extract_json_from_response text = v := by
  unfold extract_json_from_response
  simp only [h]

/-- When the direct parse fails and the fenced block parses, its value is
returned. -/
theorem extract_of_fenced (text : String) (s : List Char) (v : Json)
    (h1 : json_loads text = none) (h2 : fencedSearch text.data = some s)
    (h3 : json_loads_chars s = some v) :
    extract_json_from_response text = v := by
  unfold extract_json_from_response
  simp only [h1, h2, h3]

/-- When the direct parse fails and the fenced step yields nothing, the
extractor falls through to the brace-span step. -/
theorem extract_to_brace (text : String)
    (h1 : json_loads text = none)
    (h2 : fencedSearch text.data = none ∨
          ∃ s, fencedSearch text.data = some s ∧ json_loads_chars s = none) :
    extract_json_from_response text = brace_step text := by
  unfold extract_json_from_response
  rcases h2 with h2 | ⟨s, h2, h3⟩
  · simp only [h1, h2]
  · simp only [h1, h2, h3]

/-- A successful brace-span parse is returned as is. -/
theorem brace_step_of_parse (text : String) (sp : List Char) (v : Json)
    (h1 : braceSearch text.data = some sp) (h2 : json_loads_chars sp = some v) :
    brace_step text = v := by
  unfold brace_step
  simp only [h1, h2]

/-- When the brace-span step yields nothing, the fallback error object is
returned. -/
theorem brace_step_of_fail (text : String)
    (h : braceSearch text.data = none ∨
         ∃ sp, braceSearch text.data = some sp ∧ json_loads_chars sp = none) :
    brace_step text = parse_error_obj text := by
  unfold brace_step
  rcases h with h | ⟨sp, h, h2⟩
  · simp only [h]
  · simp only [h, h2]

/-- Case analysis of the extractor: it returns the direct parse, the parse
of the fenced block, the parse of the brace span, or the fallback error
object. -/
theorem extract_cases (text : String) :
    (∃ v, json_loads text = some v ∧ extract_json_from_response text = v) ∨
    (json_loads text = none ∧
      ((∃ s v, fencedSearch text.data = some s ∧ json_loads_chars s = some v ∧
          extract_json_from_response text = v) ∨
       (∃ s v, braceSearch text.data = some s ∧ json_loads_chars s = some v ∧
          extract_json_from_response text = v) ∨
       extract_json_from_response text = parse_error_obj text)) := by
  cases h1 : json_loads text with
  | some v => exact Or.inl ⟨v, rfl, extract_of_direct text v h1⟩
  | none =>
    refine Or.inr ⟨rfl, ?_⟩
    cases h2 : fencedSearch text.data with
    | some s =>
      cases h3 : json_loads_chars s with
      | some v => exact Or.inl ⟨s, v, rfl, h3, extract_of_fenced text s v h1 h2 h3⟩
      | none =>
        have he := extract_to_brace text h1 (Or.inr ⟨s, h2, h3⟩)
        cases h4 : braceSearch text.data with
        | some sp =>
          cases h5 : json_loads_chars sp with
          | some v =>
            exact Or.inr (Or.inl ⟨sp, v, rfl, h5,
              he.trans (brace_step_of_parse text sp v h4 h5)⟩)
          | none =>
            exact Or.inr (Or.inr (he.trans
              (brace_step_of_fail text (Or.inr ⟨sp, h4, h5⟩))))
        | none =>
          exact Or.inr (Or.inr (he.trans (brace_step_of_fail text (Or.inl h4))))
    | none =>
      have he := extract_to_brace text h1 (Or.inl h2)
      cases h4 : braceSearch text.data with
      | some sp =>
        cases h5 : json_loads_chars sp with
        | some v =>
          exact Or.inr (Or.inl ⟨sp, v, rfl, h5,
            he.trans (brace_step_of_parse text sp v h4 h5)⟩)
        | none =>
          exact Or.inr (Or.inr (he.trans
            (brace_step_of_fail text (Or.inr ⟨sp, h4, h5⟩))))
      | none =>
        exact Or.inr (Or.inr (he.trans (brace_step_of_fail text (Or.inl h4))))

/-- Operational regex model versus the claim's description: when a `{`
occurs before a `}`, the leftmost-greedy match of the brace pattern spans
from the first `{` of the text through its last `}`. -/
theorem braceSearch_eq_span :
    ∀ (cs : List Char) (i j : Nat),
      firstIdxOf '{' cs = some i → lastIdxOf '}' cs = some j → i < j →
      braceSearch cs = some ((cs.drop i).take (j - i + 1)) := by
  intro cs
  induction cs with
  | nil => intro i j hi _ _; exact absurd hi (by simp [firstIdxOf])
  | cons a rest ih =>
    intro i j hi hj hij
    simp only [firstIdxOf] at hi
    simp only [lastIdxOf] at hj
    by_cases ha : a = '{'
    · subst ha
      simp at hi
      subst hi
      rcases hrest : lastIdxOf '}' rest with _ | n
      · simp only [hrest] at hj
        simp at hj
      · simp only [hrest, Option.some.injEq] at hj
        subst hj
        simp [braceSearch, hrest]
    · rw [if_neg ha] at hi
      rcases Option.map_eq_some'.mp hi with ⟨i2, hfi, hi2⟩
      rcases hrest : lastIdxOf '}' rest with _ | n
      · simp only [hrest] at hj
        by_cases hb : a = '}'
        · rw [if_pos hb] at hj
          injection hj with hj0
          omega
        · rw [if_neg hb] at hj
          exact absurd hj (by simp)
      · simp only [hrest, Option.some.injEq] at hj
        subst hj
        subst hi2
        have hrec := ih i2 n hfi hrest (by omega)
        simp [braceSearch, ha, hrec, Nat.succ_sub_succ]

/-- C1: for every input text the Response Extractor follows the exact
precedence: a successful direct parse of the entire text is returned
immediately, short-circuiting all further attempts; only when it fails is
the first ```json fenced block parsed, its value returned on success;
only when that step finds no tagged block or its content fails to parse
does the extractor fall through to the brace-span step.  Each attempt is
a pure function of the unchanged original text. -/
theorem C1_extraction_precedence (text : String) :
    (∀ v, json_loads text = some v → extract_json_from_response text = v) ∧
    (json_loads text = none →
      ∀ s v, fencedSearch text.data = some s → json_loads_chars s = some v →
        extract_json_from_response text = v) ∧
    (json_loads text = none →
      (fencedSearch text.data = none ∨
        ∃ s, fencedSearch text.data = some s ∧ json_loads_chars s = none) →
      extract_json_from_response text = brace_step text) :=
  ⟨fun v h => extract_of_direct text v h,
   fun h1 s v h2 h3 => extract_of_fenced text s v h1 h2 h3,
   fun h1 h2 => extract_to_brace text h1 h2⟩

/-- Witness for C1: the three precedence branches at concrete inputs — a
direct parse, a fenced-block parse, and a fall-through to the brace-span
step. -/
theorem C1_extraction_precedence_witness :
    extract_json_from_response "\x7b\"a\": 1\x7d" = Json.obj [("a", Json.num "1")] ∧
    extract_json_from_response "noise ```json\n\x7b\"a\": 1\x7d\n``` noise" =
      Json.obj [("a", Json.num "1")] ∧
    extract_json_from_response "noise \x7ba\x7d noise" =
      brace_step "noise \x7ba\x7d noise" :=
  ⟨(C1_extraction_precedence "\x7b\"a\": 1\x7d").1 _ rfl,
   (C1_extraction_precedence "noise ```json\n\x7b\"a\": 1\x7d\n``` noise").2.1
     rfl ("\x7b\"a\": 1\x7d".data) _ rfl rfl,
   (C1_extraction_precedence "noise \x7ba\x7d noise").2.2 rfl (Or.inl rfl)⟩

/-- C2: when all three strategies fail the extractor returns the error
object with exactly the two fields error and raw_response, where
raw_response is the untouched text when its length is at most 500 and the
first 500 characters followed by "..." (length 503) when the text is
longer. -/
theorem C2_fallback_error_object (text : String)
    (h1 : json_loads text = none)
    (h2 : ∀ s, fencedSearch text.data = some s → json_loads_chars s = none)
    (h3 : ∀ sp, braceSearch text.data = some sp → json_loads_chars sp = none) :
    extract_json_from_response text =
      Json.obj [("error", Json.str "JSON解析エラー"),
                ("raw_response", Json.str (truncated_raw text))] ∧
    (text.length ≤ 500 → truncated_raw text = text) ∧
    (500 < text.length →
      truncated_raw text = String.mk (text.data.take 500) ++ "..." ∧
      (truncated_raw text).length = 503) := by
  have hbrace : brace_step text = parse_error_obj text := by
    cases h4 : braceSearch text.data with
    | some sp => exact brace_step_of_fail text (Or.inr ⟨sp, h4, h3 sp h4⟩)
    | none => exact brace_step_of_fail text (Or.inl h4)
  have hext : extract_json_from_response text = parse_error_obj text := by
    cases h5 : fencedSearch text.data with
    | some s => exact (extract_to_brace text h1 (Or.inr ⟨s, h5, h2 s h5⟩)).trans hbrace
    | none => exact (extract_to_brace text h1 (Or.inl h5)).trans hbrace
  refine ⟨hext, ?_, ?_⟩
  · intro hle
    unfold truncated_raw
    rw [if_neg (by omega)]
  · intro hgt
    have hdata : 500 ≤ text.data.length := hgt.le
    constructor
    · unfold truncated_raw
      rw [if_pos hgt]
    · unfold truncated_raw
      rw [if_pos hgt]
      have h500 : (text.data.take 500).length = 500 := by
        rw [List.length_take]
        omega
      have hmk : (String.mk (text.data.take 500)).length = (text.data.take 500).length := rfl
      rw [String.length_append, hmk, h500]
      rfl

/-- Witness for C2: on 600 identical non-JSON characters the extractor
returns the fallback error object, and the truncated raw response has
length exactly 503. -/
theorem C2_fallback_error_object_witness :
    extract_json_from_response sixHundredXs = parse_error_obj sixHundredXs ∧
    (truncated_raw sixHundredXs).length = 503 := by
  have hf : fencedSearch sixHundredXs.data = none := rfl
  have hb : braceSearch sixHundredXs.data = none := rfl
  have h := C2_fallback_error_object sixHundredXs rfl
    (fun s hs => by rw [hf] at hs; cases hs)
    (fun sp hs => by rw [hb] at hs; cases hs)
  exact ⟨h.1, (h.2.2 (by decide)).2⟩

/-- C3: when the brace-span strategy is reached and a `{` occurs before a
`}`, the substring attempted is the span from the first `{` of the full
text through its last `}` (greedy, covering the outermost braces), and if
that substring parses, its value is returned. -/
theorem C3_brace_span_greedy (text : String) (i j : Nat)
    (h1 : json_loads text = none)
    (h2 : fencedSearch text.data = none ∨
          ∃ s, fencedSearch text.data = some s ∧ json_loads_chars s = none)
    (hi : firstIdxOf '{' text.data = some i)
    (hj : lastIdxOf '}' text.data = some j)
    (hij : i < j) :
    braceSearch text.data = some ((text.data.drop i).take (j - i + 1)) ∧
    ∀ v, json_loads_chars ((text.data.drop i).take (j - i + 1)) = some v →
      extract_json_from_response text = v := by
  have hspan := braceSearch_eq_span text.data i j hi hj hij
  exact ⟨hspan, fun v hv =>
    (extract_to_brace text h1 h2).trans (brace_step_of_parse text _ v hspan hv)⟩

/-- Witness for C3: on a text holding two disjoint JSON objects the
attempted span covers both of them, and on the spec's single-object
example the parsed object is returned. -/
theorem C3_brace_span_greedy_witness :
    braceSearch "x \x7b\"a\": 1\x7d y \x7b\"b\": 2\x7d z".data =
      some "\x7b\"a\": 1\x7d y \x7b\"b\": 2\x7d".data ∧
    extract_json_from_response "blah \x7b\"a\":1\x7d blah" =
      Json.obj [("a", Json.num "1")] :=
  ⟨((C3_brace_span_greedy "x \x7b\"a\": 1\x7d y \x7b\"b\": 2\x7d z" 2 20 rfl
      (Or.inl rfl) rfl rfl (by decide)).1).trans rfl,
   (C3_brace_span_greedy "blah \x7b\"a\":1\x7d blah" 5 11 rfl
      (Or.inl rfl) rfl rfl (by decide)).2 _ rfl⟩

/-- An empty API key short-circuits the adapter with no effects. -/
theorem analyze_eq_empty_key (env : GeminiEnv) (image : PILImage)
    (sec api_key model : String) (h : api_key = "") :
    analyze_section_with_gemini env image sec api_key model =
      (missing_key_obj, []) := by
  subst h
  rfl

/-- Rewrite rule for a configure failure. -/
theorem analyze_eq_configure_error (env : GeminiEnv) (image : PILImage)
    (sec api_key model e : String) (hk : api_key ≠ "")
    (h : env.configure api_key = .error e) :
    analyze_section_with_gemini env image sec api_key model =
      (api_error_obj e, [.configure]) := by
  unfold analyze_section_with_gemini
  simp only [if_neg hk, h]

/-- Rewrite rule for a PNG-encoding failure. -/
theorem analyze_eq_save_error (env : GeminiEnv) (image : PILImage)
    (sec api_key model e : String) (hk : api_key ≠ "")
    (h1 : env.configure api_key = .ok ()) (h2 : env.savePng image = .error e) :
    analyze_section_with_gemini env image sec api_key model =
      (api_error_obj e, [.configure, .encodePng]) := by
  unfold analyze_section_with_gemini
  simp only [if_neg hk, h1, h2]

/-- Rewrite rule for a model-initialization failure. -/
theorem analyze_eq_init_error (env : GeminiEnv) (image : PILImage)
    (sec api_key model e : String) (png : List Nat) (hk : api_key ≠ "")
    (h1 : env.configure api_key = .ok ()) (h2 : env.savePng image = .ok png)
    (h3 : env.initModel model = .error e) :
    analyze_section_with_gemini env image sec api_key model =
      (api_error_obj e, [.configure, .encodePng, .initModel]) := by
  unfold analyze_section_with_gemini
  simp only [if_neg hk, h1, h2, h3]

/-- Rewrite rule for a missing prompt entry (KeyError). -/
theorem analyze_eq_prompt_none (env : GeminiEnv) (image : PILImage)
    (sec api_key model : String) (png : List Nat) (m : GeminiModel)
    (hk : api_key ≠ "")
    (h1 : env.configure api_key = .ok ()) (h2 : env.savePng image = .ok png)
    (h3 : env.initModel model = .ok m) (hp : prompts sec = none) :
    analyze_section_with_gemini env image sec api_key model =
      (api_error_obj (String.mk ('\x27' :: sec.data ++ ['\x27'])),
       [.configure, .encodePng, .initModel]) := by
  unfold analyze_section_with_gemini
  simp only [if_neg hk, h1, h2, h3, hp]

/-- Rewrite rule for a failure of the remote generate call. -/
theorem analyze_eq_generate_error (env : GeminiEnv) (image : PILImage)
    (sec api_key model e p : String) (png : List Nat) (m : GeminiModel)
    (hk : api_key ≠ "")
    (h1 : env.configure api_key = .ok ()) (h2 : env.savePng image = .ok png)
    (h3 : env.initModel model = .ok m) (hp : prompts sec = some p)
    (h5 : env.generate m p png = .error e) :
    analyze_section_with_gemini env image sec api_key model =
      (api_error_obj e, [.configure, .encodePng, .initModel, .generate]) := by
  unfold analyze_section_with_gemini
  simp only [if_neg hk, h1, h2, h3, hp, h5]

/-- Rewrite rule for a successful remote call: the extractor's result is
returned. -/
theorem analyze_eq_generate_ok (env : GeminiEnv) (image : PILImage)
    (sec api_key model p txt : String) (png : List Nat) (m : GeminiModel)
    (hk : api_key ≠ "")
    (h1 : env.configure api_key = .ok ()) (h2 : env.savePng image = .ok png)
    (h3 : env.initModel model = .ok m) (hp : prompts sec = some p)
    (h5 : env.generate m p png = .ok txt) :
    analyze_section_with_gemini env image sec api_key model =
      (extract_json_from_response txt,
       [.configure, .encodePng, .initModel, .generate]) := by
  unfold analyze_section_with_gemini
  simp only [if_neg hk, h1, h2, h3, hp, h5]

/-- C4: with an absent/empty API key the adapter returns the missing-key
error object and performs no effect at all: no configure call, no image
encoding, no model initialization, no generate call (empty effect
trace). -/
theorem C4_missing_api_key (env : GeminiEnv) (image : PILImage)
    (section_name api_key model_name : String) (h : api_key = "") :
    analyze_section_with_gemini env image section_name api_key model_name =
      (Json.obj [("error", Json.str "Gemini APIキーが設定されていません")], []) := by
  subst h
  rfl

/-- Witness for C4 at a concrete oracle, image, section and model. -/
theorem C4_missing_api_key_witness :
    analyze_section_with_gemini (okEnv "ok") testImage "A" "" "gemini-2.5-pro" =
      (Json.obj [("error", Json.str "Gemini APIキーが設定されていません")], []) :=
  C4_missing_api_key (okEnv "ok") testImage "A" "" "gemini-2.5-pro" rfl

/-- C5: every exception raised by a step of the call path after the
credential check is caught and turned into an error object carrying the
exception's message; the adapter is a total function (nothing
propagates), and no step is retried (the effect trace has no
duplicates). -/
theorem C5_exception_containment (env : GeminiEnv) (image : PILImage)
    (sec api_key model : String) (hk : api_key ≠ "") :
    (∀ e, env.configure api_key = .error e →
      analyze_section_with_gemini env image sec api_key model =
        (api_error_obj e, [.configure])) ∧
    (∀ e, env.configure api_key = .ok () → env.savePng image = .error e →
      analyze_section_with_gemini env image sec api_key model =
        (api_error_obj e, [.configure, .encodePng])) ∧
    (∀ e png, env.configure api_key = .ok () → env.savePng image = .ok png →
      env.initModel model = .error e →
      analyze_section_with_gemini env image sec api_key model =
        (api_error_obj e, [.configure, .encodePng, .initModel])) ∧
    (∀ e png m p, env.configure api_key = .ok () → env.savePng image = .ok png →
      env.initModel model = .ok m → prompts sec = some p →
      env.generate m p png = .error e →
      analyze_section_with_gemini env image sec api_key model =
        (api_error_obj e, [.configure, .encodePng, .initModel, .generate])) ∧
    (analyze_section_with_gemini env image sec api_key model).2.Nodup := by
  refine ⟨?_, ?_, ?_, ?_, ?_⟩
  · intro e h
    unfold analyze_section_with_gemini
    simp only [if_neg hk, h]
  · intro e h1 h2
    unfold analyze_section_with_gemini
    simp only [if_neg hk, h1, h2]
  · intro e png h1 h2 h3
    unfold analyze_section_with_gemini
    simp only [if_neg hk, h1, h2, h3]
  · intro e png m p h1 h2 h3 h4 h5
    unfold analyze_section_with_gemini
    simp only [if_neg hk, h1, h2, h3, h4, h5]
  · rcases hc : env.configure api_key with e | u
    · rw [analyze_eq_configure_error env image sec api_key model e hk hc]
      exact (by decide : ([Effect.configure] : List Effect).Nodup)
    · rcases hs : env.savePng image with e | png
      · rw [analyze_eq_save_error env image sec api_key model e hk hc hs]
        exact (by decide : ([Effect.configure, .encodePng] : List Effect).Nodup)
      · rcases hm : env.initModel model with e | m
        · rw [analyze_eq_init_error env image sec api_key model e png hk hc hs hm]
          exact (by decide :
            ([Effect.configure, .encodePng, .initModel] : List Effect).Nodup)
        · rcases hp : prompts sec with _ | p
          · rw [analyze_eq_prompt_none env image sec api_key model png m hk hc hs hm hp]
            exact (by decide :
              ([Effect.configure, .encodePng, .initModel] : List Effect).Nodup)
          · rcases hg : env.generate m p png with e | txt
            · rw [analyze_eq_generate_error env image sec api_key model e p png m
                hk hc hs hm hp hg]
              exact (by decide :
                ([Effect.configure, .encodePng, .initModel, .generate] : List Effect).Nodup)
            · rw [analyze_eq_generate_ok env image sec api_key model p txt png m
                hk hc hs hm hp hg]
              exact (by decide :
                ([Effect.configure, .encodePng, .initModel, .generate] : List Effect).Nodup)

/-- Witness for C5: an oracle whose remote generate call raises yields the
error object with the exception's message and the full effect trace. -/
theorem C5_exception_containment_witness :
    analyze_section_with_gemini failEnv testImage "B" "key" "gemini-1.5-flash" =
      (api_error_obj "quota exceeded",
       [.configure, .encodePng, .initModel, .generate]) :=
  (C5_exception_containment failEnv testImage "B" "key" "gemini-1.5-flash"
      (by decide)).2.2.2.1 "quota exceeded" [] ⟨"gemini-1.5-flash"⟩ promptB
    rfl rfl rfl rfl rfl

/-- C6: for every oracle, image, key and model, the aggregation loop
yields exactly one entry per region of the Region Definitions, keyed by
its identifier in the definitions' fixed order, and each region's entry
is that region's own adapter result, independent of the other regions'
outcomes. -/
theorem C6_aggregation_isolation (env : GeminiEnv) (image : PILImage)
    (api_key model : String) :
    (analyze_all_sections env image api_key model).map Prod.fst =
      ["A", "B", "C", "D"] ∧
    ∀ sec bbox, (sec, bbox) ∈ BBOX_COORDINATES →
      (analyze_all_sections env image api_key model).lookup sec =
        some (analyze_section_with_gemini env (crop_image_by_bbox image bbox)
                sec api_key model).1 := by
  constructor
  · rfl
  · intro sec bbox hmem
    simp only [BBOX_COORDINATES, List.mem_cons, List.not_mem_nil, or_false,
      Prod.mk.injEq] at hmem
    rcases hmem with ⟨rfl, rfl⟩ | ⟨rfl, rfl⟩ | ⟨rfl, rfl⟩ | ⟨rfl, rfl⟩ <;> rfl

/-- Witness for C6: with an oracle mocked to raise exactly on region B's
prompt, the aggregate still has the four entries in order, B carrying an
error object and the others the parsed structured object. -/
theorem C6_aggregation_isolation_witness :
    (analyze_all_sections mockEnvB testImage "k" "gemini-2.5-pro").map Prod.fst =
      ["A", "B", "C", "D"] ∧
    (analyze_all_sections mockEnvB testImage "k" "gemini-2.5-pro").lookup "B" =
      some (api_error_obj "mocked failure") ∧
    (analyze_all_sections mockEnvB testImage "k" "gemini-2.5-pro").lookup "A" =
      some (Json.obj [("section", Json.str "X")]) ∧
    (analyze_all_sections mockEnvB testImage "k" "gemini-2.5-pro").lookup "C" =
      some (Json.obj [("section", Json.str "X")]) ∧
    (analyze_all_sections mockEnvB testImage "k" "gemini-2.5-pro").lookup "D" =
      some (Json.obj [("section", Json.str "X")]) := by
  have h := C6_aggregation_isolation mockEnvB testImage "k" "gemini-2.5-pro"
  refine ⟨h.1, ?_, ?_, ?_, ?_⟩
  · exact (h.2 "B" ⟨47, 504, 880, 902⟩ (by decide)).trans rfl
  · exact (h.2 "A" ⟨47, 156, 880, 499⟩ (by decide)).trans rfl
  · exact (h.2 "C" ⟨47, 906, 881, 1083⟩ (by decide)).trans rfl
  · exact (h.2 "D" ⟨45, 1083, 320, 1200⟩ (by decide)).trans rfl

/-- C7: each of the four region prompts is non-empty, contains the
region's title, and contains every term of that region's answer-choice
vocabulary. -/
theorem C7_prompts_titles_and_vocabulary :
    ((prompts "A").getD "" ≠ "" ∧
      promptContains "A" "あなたの仕事について" = true ∧
      promptContains "A" "そうだ" = true ∧
      promptContains "A" "まあそうだ" = true ∧
      promptContains "A" "ややちがう" = true ∧
      promptContains "A" "ちがう" = true) ∧
    ((prompts "B").getD "" ≠ "" ∧
      promptContains "B" "最近1か月間のあなたの状態について" = true ∧
      promptContains "B" "ほとんどいつもあった" = true ∧
      promptContains "B" "しばしばあった" = true ∧
      promptContains "B" "ときどきあった" = true ∧
      promptContains "B" "ほとんどなかった" = true) ∧
    ((prompts "C").getD "" ≠ "" ∧
      promptContains "C" "あなたの周りの方々について" = true ∧
      promptContains "C" "非常に" = true ∧
      promptContains "C" "かなり" = true ∧
      promptContains "C" "多少" = true ∧
      promptContains "C" "ない" = true ∧
      promptContains "C" "全くない" = true) ∧
    ((prompts "D").getD "" ≠ "" ∧
      promptContains "D" "満足度について" = true ∧
      promptContains "D" "満足" = true ∧
      promptContains "D" "まあ満足" = true ∧
      promptContains "D" "やや不満足" = true ∧
      promptContains "D" "不満足" = true) := by
  decide

/-- C8: cropping with in-bounds coordinates yields an image of size
exactly (x2 - x1, y2 - y1) anchored at the source's top-left origin, as a
pure derivation that reads but never writes the source. -/
theorem C8_crop_size_and_anchor (img : PILImage) (b : BBox)
    (_h1 : b.x1 < b.x2) (_h2 : b.x2 ≤ img.width)
    (_h3 : b.y1 < b.y2) (_h4 : b.y2 ≤ img.height) :
    (crop_image_by_bbox img b).width = b.x2 - b.x1 ∧
    (crop_image_by_bbox img b).height = b.y2 - b.y1 ∧
    ∀ u v, (crop_image_by_bbox img b).pixel u v = img.pixel (b.x1 + u) (b.y1 + v) :=
  ⟨rfl, rfl, fun _ _ => rfl⟩

/-- Witness for C8 at the concrete region A bounds on a 1000x1300 image. -/
theorem C8_crop_size_and_anchor_witness :
    (crop_image_by_bbox testImage ⟨47, 156, 880, 499⟩).width = 833 ∧
    (crop_image_by_bbox testImage ⟨47, 156, 880, 499⟩).height = 343 :=
  ⟨((C8_crop_size_and_anchor testImage ⟨47, 156, 880, 499⟩ (by decide) (by decide)
      (by decide) (by decide)).1).trans (by decide),
   ((C8_crop_size_and_anchor testImage ⟨47, 156, 880, 499⟩ (by decide) (by decide)
      (by decide) (by decide)).2.1).trans (by decide)⟩

/-- Counterexample for C9: a model answer of plain "3" parses, so the
adapter result is the JSON number 3, which is neither the structured
record shape nor the error record shape — the claimed dichotomy fails. -/
theorem C9_counterexample :
    (analyze_section_with_gemini (okEnv "3") testImage "A" "k" "m").1 = Json.num "3" ∧
    isStructuredRecord (Json.num "3") = false ∧
    isErrorRecord (Json.num "3") = false :=
  ⟨rfl, rfl, rfl⟩

/-- C9 (amended): the per-region result is either a JSON value that one
of the extractor's strategies successfully parsed (not necessarily of the
structured shape — no schema validation is performed) or an object
carrying an error field. -/
theorem C9_result_parsed_or_error (env : GeminiEnv) (image : PILImage)
    (sec api_key model : String) :
    isErrorKeyed (analyze_section_with_gemini env image sec api_key model).1 = true ∨
    ∃ s v, json_loads_chars s = some v ∧
      (analyze_section_with_gemini env image sec api_key model).1 = v := by
  by_cases hk : api_key = ""
  · rw [analyze_eq_empty_key env image sec api_key model hk]
    exact Or.inl rfl
  · rcases hc : env.configure api_key with e | u
    · rw [analyze_eq_configure_error env image sec api_key model e hk hc]
      exact Or.inl rfl
    · rcases hs : env.savePng image with e | png
      · rw [analyze_eq_save_error env image sec api_key model e hk hc hs]
        exact Or.inl rfl
      · rcases hm : env.initModel model with e | m
        · rw [analyze_eq_init_error env image sec api_key model e png hk hc hs hm]
          exact Or.inl rfl
        · rcases hp : prompts sec with _ | p
          · rw [analyze_eq_prompt_none env image sec api_key model png m hk hc hs hm hp]
            exact Or.inl rfl
          · rcases hg : env.generate m p png with e | txt
            · rw [analyze_eq_generate_error env image sec api_key model e p png m
                hk hc hs hm hp hg]
              exact Or.inl rfl
            · rw [analyze_eq_generate_ok env image sec api_key model p txt png m
                hk hc hs hm hp hg]
              rcases extract_cases txt with ⟨v, h1, h2⟩ |
                ⟨h0, ⟨s, v, hs2, h1, h2⟩ | ⟨s, v, hs2, h1, h2⟩ | h⟩
              · exact Or.inr ⟨txt.data, v, h1, h2⟩
              · exact Or.inr ⟨s, v, h1, h2⟩
              · exact Or.inr ⟨s, v, h1, h2⟩
              · refine Or.inl ?_
                show isErrorKeyed (extract_json_from_response txt) = true
                rw [h]
                rfl

/-- C10: the extractor is total: for every input it returns either a value
parsed by one of the three strategies or the fallback error object; every
decode failure is absorbed internally. -/
theorem C10_extractor_total (text : String) :
    (∃ v, (json_loads text = some v ∨
        (∃ s, fencedSearch text.data = some s ∧ json_loads_chars s = some v) ∨
        (∃ s, braceSearch text.data = some s ∧ json_loads_chars s = some v)) ∧
      extract_json_from_response text = v) ∨
    extract_json_from_response text = parse_error_obj text := by
  rcases extract_cases text with ⟨v, h1, h2⟩ |
    ⟨h0, ⟨s, v, hs, h1, h2⟩ | ⟨s, v, hs, h1, h2⟩ | h⟩
  · exact Or.inl ⟨v, Or.inl h1, h2⟩
  · exact Or.inl ⟨v, Or.inr (Or.inl ⟨s, hs, h1⟩), h2⟩
  · exact Or.inl ⟨v, Or.inr (Or.inr ⟨s, hs, h1⟩), h2⟩
  · exact Or.inr h

end MedScan
